import Mathlib

/-!
Shallow embedding of `serve.py`, a static-file development server.

The script's observable behaviour is modelled as a function from an
environment (filesystem state, socket-operation outcomes, interruption of
the accept loop) to a trace of observable events together with a process
outcome.  Pure helpers of the script (`get_ip`, the `end_headers` and
`log_message` overrides) are modelled as Lean functions over explicit
outcome/argument data.
-/

namespace Serve

/-- Python exception classes relevant to the script.  A bare `except:`
catches every one of them, including `KeyboardInterrupt` and `SystemExit`. -/
inductive PyExc where
  | osError
  | notADirectoryError
  | keyboardInterrupt
  | systemExit
  | other
deriving DecidableEq, Repr

/-- Observable events of the process: writes to standard output, the working
directory change, socket-level operations of `get_ip`, binding the TCP
listener, and entering the accept loop. -/
inductive Event where
  | print (s : String)
  | chdir (d : String)
  | sockCreate
  | sockConnect (host : String) (port : Nat)
  | sockGetName
  | sockClose
  | sockSend (payload : String)
  | bind (host : String) (port : Nat)
  | serveStart
deriving DecidableEq, Repr

/-- Outcomes of each socket operation attempted by `get_ip`
(`none` = the operation succeeds, `some e` = it raises `e`), together with
the locally assigned address reported by `getsockname`. -/
structure IpProbe where
  createExc : Option PyExc
  connectExc : Option PyExc
  getnameExc : Option PyExc
  closeExc : Option PyExc
  localAddr : String
deriving DecidableEq, Repr

/-- `get_ip` from `serve.py`: open a UDP socket, connect it to
`8.8.8.8:80`, read the locally assigned address, close the socket and
return the address; under a bare `except:` any raised exception yields the
literal string `"localhost"`.  Returns the trace of attempted socket
operations together with the result. -/
def get_ip (p : IpProbe) : List Event × String :=
  match p.createExc with
  | some _ => ([Event.sockCreate], "localhost")
  | none =>
    match p.connectExc with
    | some _ => ([Event.sockCreate, Event.sockConnect "8.8.8.8" 80], "localhost")
    | none =>
      match p.getnameExc with
      | some _ =>
        ([Event.sockCreate, Event.sockConnect "8.8.8.8" 80, Event.sockGetName],
         "localhost")
      | none =>
        match p.closeExc with
        | some _ =>
          ([Event.sockCreate, Event.sockConnect "8.8.8.8" 80, Event.sockGetName,
            Event.sockClose], "localhost")
        | none =>
          ([Event.sockCreate, Event.sockConnect "8.8.8.8" 80, Event.sockGetName,
            Event.sockClose], p.localAddr)

/-- What kind of filesystem entry the path `dist` names at startup. -/
inductive PathKind where
  | absent
  | file
  | dir
deriving DecidableEq, Repr

/-- Environment a run of the script observes: the kind of entry `dist` is,
the absolute working directory reported by `os.getcwd()` after `chdir`,
the socket outcomes seen by `get_ip`, and whether/how `serve_forever`
is interrupted (`none` = it runs forever, `some e` = it raises `e`). -/
structure Env where
  distKind : PathKind
  cwd : String
  probe : IpProbe
  serveExc : Option PyExc
deriving DecidableEq, Repr

/-- Process outcome: still running the accept loop, terminated via
`sys.exit` with a status code, or killed by an uncaught exception. -/
inductive Outcome where
  | runsForever
  | exited (code : Nat)
  | crashed (e : PyExc)
deriving DecidableEq, Repr

/-- `PORT = 8000` from `serve.py`. -/
def PORT : Nat := 8000

/-- The fatal diagnostic printed when `dist` does not exist. -/
def errMsg : String := "ERROR: dist folder not found. Run 'npm run build' first."

/-- `"=" * 60`, the banner separator line. -/
def sepLine : String := String.mk (List.replicate 60 '=')

/-- The banner prints of lines 44-51, in order; `get_ip` is called while
evaluating the f-string of the network line, so its socket events appear
between the local-URL print and the network-URL print. -/
def banner (ipEvents : List Event) (ip : String) : List Event :=
  [Event.print sepLine,
   Event.print " Formansbil Kalkylator - Python Server",
   Event.print sepLine,
   Event.print (" Server running at: http://localhost:" ++ toString PORT ++ "/")]
  ++ ipEvents
  ++ [Event.print (" Network: http://" ++ ip ++ ":" ++ toString PORT ++ "/"),
      Event.print sepLine,
      Event.print "Press Ctrl+C to stop the server",
      Event.print ""]

/-- The module top level of `serve.py`:
if `os.path.exists('dist')` fails, print the diagnostic and `sys.exit(1)`;
otherwise `os.chdir('dist')` (which raises `NotADirectoryError`, uncaught,
when `dist` exists but is not a directory), print the resolved directory,
print the banner, bind the TCP listener on `("", PORT)` and run
`serve_forever()`; a `KeyboardInterrupt` raised there is caught, prints the
shutdown notice and `sys.exit(0)`; any other exception is uncaught. -/
def program (env : Env) : List Event × Outcome :=
  match env.distKind with
  | PathKind.absent => ([Event.print errMsg], Outcome.exited 1)
  | PathKind.file => ([], Outcome.crashed PyExc.notADirectoryError)
  | PathKind.dir =>
    let pre := [Event.chdir "dist", Event.print ("Serving from: " ++ env.cwd)]
    let ipr := get_ip env.probe
    let tr := pre ++ banner ipr.1 ipr.2 ++ [Event.bind "" PORT, Event.serveStart]
    match env.serveExc with
    | none => (tr, Outcome.runsForever)
    | some PyExc.keyboardInterrupt =>
        (tr ++ [Event.print "\n\nServer stopped"], Outcome.exited 0)
    | some e => (tr, Outcome.crashed e)

/-- The header the `end_headers` override injects. -/
def cacheControl : String × String :=
  ("Cache-Control", "no-store, no-cache, must-revalidate")

/-- `send_header` appends one header to the buffered header list. -/
def send_header (buf : List (String × String)) (h : String × String) :
    List (String × String) :=
  buf ++ [h]

/-- The base class's `end_headers`: flush the buffered headers as the
response's header block, unchanged. -/
def base_end_headers (buf : List (String × String)) : List (String × String) :=
  buf

/-- The `end_headers` override of `MyHTTPRequestHandler`: send the
`Cache-Control` header, then delegate to the base implementation. -/
def end_headers (buf : List (String × String)) : List (String × String) :=
  base_end_headers (send_header buf cacheControl)

/-- The `log_message` override of `MyHTTPRequestHandler`: one `print` call
whose payload is the timestamp in brackets followed by the formatted
message `format % args`.  Returns the list of print payloads emitted. -/
def log_message (ts msg : String) : List String :=
  ["[" ++ ts ++ "] " ++ msg]

/-- Boolean prefix test on character lists (structural, `decide`-friendly). -/
def isPre : List Char → List Char → Bool
  | [], _ => true
  | _ :: _, [] => false
  | a :: as, b :: bs => a == b && isPre as bs

/-- Boolean substring test on character lists. -/
def containsSub (pat : List Char) : List Char → Bool
  | [] => pat.isEmpty
  | c :: t => isPre pat (c :: t) || containsSub pat t

/-- A header name in the CORS family (`Access-Control-*`). -/
def isCorsName (name : String) : Bool :=
  isPre "Access-Control-".data name.data

/-- Recognize a bind event. -/
def isBindEv : Event → Bool
  | Event.bind _ _ => true
  | _ => false

/-- A print event whose payload mentions a URL. -/
def mentionsHttp : Event → Bool
  | Event.print s => containsSub "http://".data s.data
  | _ => false

/-- Recognize a socket-send event. -/
def isSendEv : Event → Bool
  | Event.sockSend _ => true
  | _ => false

/-- An all-success socket probe. -/
def probeOk : IpProbe := ⟨none, none, none, none, "192.168.1.5"⟩

/-- A run where `dist` is a directory and the loop is never interrupted. -/
def envDir : Env := ⟨PathKind.dir, "/srv/app/dist", probeOk, none⟩

/-- A run where `dist` does not exist. -/
def envAbsent : Env := ⟨PathKind.absent, "/srv/app", probeOk, none⟩

/-- A run where `dist` exists but is a regular file. -/
def envFile : Env := ⟨PathKind.file, "/srv/app", probeOk, none⟩

/-- A run where `dist` is a directory and the accept loop receives one
interrupt signal. -/
def envIntr : Env :=
  ⟨PathKind.dir, "/srv/app/dist", probeOk, some PyExc.keyboardInterrupt⟩

/-- `get_ip` performs no bind: its socket trace contains no bind event. -/
theorem getIp_no_bind (p : IpProbe) : (get_ip p).1.filter isBindEv = [] := by
  rcases hc : p.createExc with _ | e₁ <;>
    rcases hn : p.connectExc with _ | e₂ <;>
      rcases hg : p.getnameExc with _ | e₃ <;>
        rcases hx : p.closeExc with _ | e₄ <;>
          simp [get_ip, hc, hn, hg, hx, isBindEv]

/-- The banner prints contain no bind event beyond those of the embedded
`get_ip` trace. -/
theorem banner_filter_bind (ipEvents : List Event) (ip : String) :
    (banner ipEvents ip).filter isBindEv = ipEvents.filter isBindEv := by
  simp [banner, List.filter_append, isBindEv]

/-- C1: Every HTTP response produced by the server, whatever its status,
carries the header `Cache-Control: no-store, no-cache, must-revalidate` in
addition to every header the base handler buffered for that response: the
overridden `end_headers` finalizes the buffered headers plus the
cache-control header. -/
theorem every_response_has_cache_control (buf : List (String × String)) :
    cacheControl ∈ end_headers buf ∧ ∀ h, h ∈ buf → h ∈ end_headers buf := by
  constructor
  · simp [end_headers, base_end_headers, send_header]
  · intro h hh
    simp [end_headers, base_end_headers, send_header]
    exact Or.inl hh

/-- Witness for C1 at a concrete buffered header list. -/
theorem every_response_has_cache_control_witness :
    cacheControl ∈ end_headers [("Content-type", "text/html")] ∧
      ("Content-type", "text/html") ∈ end_headers [("Content-type", "text/html")] :=
  ⟨(every_response_has_cache_control _).1,
   (every_response_has_cache_control [("Content-type", "text/html")]).2 _ (by simp)⟩

/-- C9: The `end_headers` override adds exactly one extra header — the
cache-control directive — and no CORS header: the finalized block is the
buffered headers plus `cacheControl`, one entry longer, every member is
either buffered or `cacheControl`, and `cacheControl` is not an
`Access-Control-*` header. -/
theorem endHeaders_adds_exactly_cache_control (buf : List (String × String)) :
    end_headers buf = buf ++ [cacheControl] ∧
    (end_headers buf).length = buf.length + 1 ∧
    (∀ h, h ∈ end_headers buf → h ∈ buf ∨ h = cacheControl) ∧
    isCorsName cacheControl.1 = false := by
  refine ⟨rfl, by simp [end_headers, base_end_headers, send_header], ?_, by decide⟩
  intro h hh
  simpa [end_headers, base_end_headers, send_header] using hh

/-- Witness for C9 at a concrete buffered header list. -/
theorem endHeaders_adds_exactly_cache_control_witness :
    end_headers [("Date", "today")] = [("Date", "today"), cacheControl] ∧
      (("Date", "today") ∈ [("Date", "today")] ∨ ("Date", "today") = cacheControl) := by
  refine ⟨(endHeaders_adds_exactly_cache_control [("Date", "today")]).1, ?_⟩
  exact (endHeaders_adds_exactly_cache_control [("Date", "today")]).2.2.1 _ (by decide)

/-- C6: `get_ip` creates a UDP socket, connects it only toward
`8.8.8.8:80`, never sends data, closes the socket on the success path, and
returns the locally assigned address on success; if any of the four socket
operations raises, it returns the literal string `"localhost"`. -/
theorem getIp_spec (p : IpProbe) :
    ((get_ip p).1.filter isSendEv = []) ∧
    (∀ h prt, Event.sockConnect h prt ∈ (get_ip p).1 → h = "8.8.8.8" ∧ prt = 80) ∧
    ((p.createExc.isSome ∨ p.connectExc.isSome ∨ p.getnameExc.isSome ∨
        p.closeExc.isSome) → (get_ip p).2 = "localhost") ∧
    (p.createExc = none → p.connectExc = none → p.getnameExc = none →
      p.closeExc = none →
      (get_ip p).2 = p.localAddr ∧ Event.sockClose ∈ (get_ip p).1) := by
  rcases hc : p.createExc with _ | e₁ <;>
    rcases hn : p.connectExc with _ | e₂ <;>
      rcases hg : p.getnameExc with _ | e₃ <;>
        rcases hx : p.closeExc with _ | e₄ <;>
          simp [get_ip, hc, hn, hg, hx, isSendEv]

/-- Witness for C6: a probe whose connect raises yields `"localhost"`;
an all-success probe yields its local address and a close event. -/
theorem getIp_spec_witness :
    (get_ip ⟨none, some PyExc.osError, none, none, "10.0.0.7"⟩).2 = "localhost" ∧
      (get_ip ⟨none, none, none, none, "10.0.0.7"⟩).2 = "10.0.0.7" := by
  constructor
  · exact (getIp_spec ⟨none, some PyExc.osError, none, none, "10.0.0.7"⟩).2.2.1
      (Or.inr (Or.inl rfl))
  · exact ((getIp_spec ⟨none, none, none, none, "10.0.0.7"⟩).2.2.2
      rfl rfl rfl rfl).1

/-- C10: the bare `except:` of `get_ip` catches every exception class —
`KeyboardInterrupt` and `SystemExit` included — so whichever socket step
raises, and whatever it raises, `get_ip` returns `"localhost"` instead of
letting the exception terminate the process. -/
theorem getIp_swallows_every_exception (p : IpProbe) (e : PyExc) :
    (p.createExc = some e ∨ p.connectExc = some e ∨ p.getnameExc = some e ∨
      p.closeExc = some e) → (get_ip p).2 = "localhost" := by
  intro h
  rcases hc : p.createExc with _ | e₁ <;>
    rcases hn : p.connectExc with _ | e₂ <;>
      rcases hg : p.getnameExc with _ | e₃ <;>
        rcases hx : p.closeExc with _ | e₄ <;>
          simp [get_ip, hc, hn, hg, hx]
  all_goals simp [hc, hn, hg, hx] at h

/-- Witness for C10: an interrupt delivered during the connect step is
swallowed and the result is `"localhost"`. -/
theorem getIp_swallows_every_exception_witness :
    (get_ip ⟨none, some PyExc.keyboardInterrupt, none, none, "10.0.0.7"⟩).2 =
      "localhost" :=
  getIp_swallows_every_exception
    ⟨none, some PyExc.keyboardInterrupt, none, none, "10.0.0.7"⟩
    PyExc.keyboardInterrupt (Or.inr (Or.inl rfl))

/-- C2: whenever `dist` is absent at startup, the program prints exactly one
diagnostic to standard output — a message mentioning the missing `dist`
directory and the `npm run build` step — exits with code 1, and never
binds the TCP listener. -/
theorem missing_dist_exits_one (env : Env)
    (h : env.distKind = PathKind.absent) :
    (program env).1 = [Event.print errMsg] ∧
    (program env).2 = Outcome.exited 1 ∧
    containsSub "dist".data errMsg.data = true ∧
    containsSub "npm run build".data errMsg.data = true ∧
    (program env).1.filter isBindEv = [] := by
  refine ⟨?_, ?_, by decide, by decide, ?_⟩ <;> simp [program, h, isBindEv, errMsg]

/-- Witness for C2 at a concrete environment without `dist`. -/
theorem missing_dist_exits_one_witness :
    (program envAbsent).2 = Outcome.exited 1 ∧
      (program envAbsent).1.filter isBindEv = [] :=
  ⟨(missing_dist_exits_one envAbsent rfl).2.1,
   (missing_dist_exits_one envAbsent rfl).2.2.2.2⟩

/-- Counterexample to C3: the startup check is `os.path.exists`, not a
directory check.  When `dist` exists as a regular file the check passes —
the program neither prints the fatal diagnostic nor exits with code 1 — and
the subsequent `os.chdir('dist')` raises an uncaught
`NotADirectoryError` before anything is printed. -/
theorem dist_check_is_existence_not_directory :
    (program envFile).1 = [] ∧
    (program envFile).2 = Outcome.crashed PyExc.notADirectoryError ∧
    (program envFile).2 ≠ Outcome.exited 1 ∧
    Event.print errMsg ∉ (program envFile).1 := by
  refine ⟨rfl, rfl, by decide, by simp [program, envFile]⟩

/-- C3 (amended): the program checks that `dist` exists (the check passes
for any existing path, not only directories): the fatal exit-1 path is
taken exactly when `dist` is absent; whenever `dist` is a directory the
program changes the effective serving root to it and prints the resolved
absolute path; when `dist` exists but is not a directory the chdir raises
an uncaught error. -/
theorem startup_check_and_chdir (env : Env) :
    ((program env).2 = Outcome.exited 1 ↔ env.distKind = PathKind.absent) ∧
    (env.distKind = PathKind.dir →
      ∃ rest, (program env).1 =
        Event.chdir "dist" :: Event.print ("Serving from: " ++ env.cwd) :: rest) ∧
    (env.distKind = PathKind.file →
      (program env).2 = Outcome.crashed PyExc.notADirectoryError) := by
  rcases hk : env.distKind <;> rcases hs : env.serveExc with _ | e
  all_goals try rcases e
  all_goals simp [program, hk, hs]

/-- Witness for C3 (amended) at a concrete environment with a `dist`
directory. -/
theorem startup_check_and_chdir_witness :
    ∃ rest, (program envDir).1 =
      Event.chdir "dist" ::
        Event.print ("Serving from: " ++ envDir.cwd) :: rest :=
  (startup_check_and_chdir envDir).2.1 rfl

/-- C4: for every log event the base handler raises (a formatted message
plus the handler's timestamp), the `log_message` override emits exactly one
print — so no log event is suppressed — whose single payload carries the
timestamp and the standard access-log summary, and which is a single line
whenever neither part embeds a newline. -/
theorem logMessage_one_line (ts msg : String)
    (hts : '\n' ∉ ts.data) (hmsg : '\n' ∉ msg.data) :
    (log_message ts msg).length = 1 ∧
    (∃ a b, log_message ts msg = [a ++ ts ++ b]) ∧
    (∃ c d, log_message ts msg = [c ++ msg ++ d]) ∧
    ∀ line ∈ log_message ts msg, '\n' ∉ line.data := by
  refine ⟨rfl, ⟨"[", "] " ++ msg, ?_⟩, ⟨"[" ++ ts ++ "] ", "", ?_⟩, ?_⟩
  · simp [log_message, String.append_assoc]
  · simp [log_message, String.append_assoc]
  · intro line hline
    simp only [log_message, List.mem_singleton] at hline
    subst hline
    simp [String.data_append, hts, hmsg]

/-- Witness for C4 at a concrete timestamp and access-log summary. -/
theorem logMessage_one_line_witness :
    (log_message "12/Oct/2026 10:00:00" "GET /index.html HTTP/1.1 200 -").length
      = 1 :=
  (logMessage_one_line "12/Oct/2026 10:00:00" "GET /index.html HTTP/1.1 200 -"
    (by decide) (by decide)).1

/-- C5: once the server has started, a single interrupt signal makes the
process print the shutdown notice and exit with status 0; moreover
`sys.exit` terminations are exactly two — exit 0 via an interrupt of the
running accept loop and exit 1 via the fatal startup check. -/
theorem interrupt_exits_zero (env : Env) :
    (env.distKind = PathKind.dir →
      env.serveExc = some PyExc.keyboardInterrupt →
      (program env).2 = Outcome.exited 0 ∧
        Event.print "\n\nServer stopped" ∈ (program env).1) ∧
    ∀ c, (program env).2 = Outcome.exited c ↔
      ((c = 0 ∧ env.distKind = PathKind.dir ∧
          env.serveExc = some PyExc.keyboardInterrupt) ∨
        (c = 1 ∧ env.distKind = PathKind.absent)) := by
  rcases hk : env.distKind <;> rcases hs : env.serveExc with _ | e
  all_goals try rcases e
  all_goals simp [program, hk, hs]
  all_goals intro c
  all_goals exact eq_comm

/-- Witness for C5 at a concrete interrupted run. -/
theorem interrupt_exits_zero_witness :
    (program envIntr).2 = Outcome.exited 0 ∧
      Event.print "\n\nServer stopped" ∈ (program envIntr).1 :=
  (interrupt_exits_zero envIntr).1 rfl rfl

/-- Counterexample to C7's URL count: in a concrete successful startup the
full standard-output trace contains exactly two print events mentioning a
URL (the local URL and the network URL), not three. -/
theorem banner_has_two_urls :
    ((program envDir).1.filter mentionsHttp).length = 2 := by decide

/-- C7 (amended): whenever the server starts, the banner printed on
standard output contains the application title line, the local URL
`http://localhost:8000/`, the network URL built from the discovered IP and
the same port, and the shutdown hint; the two URLs carry the port `PORT`,
which renders as `8000` and equals the port of the bind event. -/
theorem banner_urls_accurate (env : Env) (h : env.distKind = PathKind.dir) :
    Event.print " Formansbil Kalkylator - Python Server" ∈ (program env).1 ∧
    Event.print (" Server running at: http://localhost:" ++ toString PORT ++ "/")
      ∈ (program env).1 ∧
    Event.print (" Network: http://" ++ (get_ip env.probe).2 ++ ":" ++
      toString PORT ++ "/") ∈ (program env).1 ∧
    Event.print "Press Ctrl+C to stop the server" ∈ (program env).1 ∧
    toString PORT = "8000" ∧
    Event.bind "" PORT ∈ (program env).1 := by
  rcases hs : env.serveExc with _ | e
  all_goals try rcases e
  all_goals simp [program, h, hs, banner]
  all_goals rfl

/-- Witness for C7 (amended) at a concrete environment. -/
theorem banner_urls_accurate_witness :
    Event.print (" Server running at: http://localhost:" ++ toString PORT ++ "/")
      ∈ (program envDir).1 ∧ toString PORT = "8000" :=
  ⟨(banner_urls_accurate envDir rfl).2.1,
   (banner_urls_accurate envDir rfl).2.2.2.2.1⟩

/-- C8: whenever the server starts, its trace contains exactly one bind
event, on the empty host (all interfaces) at `PORT = 8000`; the socket
probe — hence the discovered IP — has no influence on the bind events of
the trace. -/
theorem single_bind_all_interfaces (env : Env) :
    (env.distKind = PathKind.dir →
      (program env).1.filter isBindEv = [Event.bind "" PORT]) ∧
    PORT = 8000 ∧
    ∀ p' : IpProbe,
      (program { env with probe := p' }).1.filter isBindEv =
        (program env).1.filter isBindEv := by
  refine ⟨?_, rfl, ?_⟩
  · intro h
    rcases hs : env.serveExc with _ | e
    all_goals try rcases e
    all_goals simp [program, h, hs, List.filter_append, banner_filter_bind,
      getIp_no_bind, isBindEv]
  · intro p'
    rcases hk : env.distKind <;> rcases hs : env.serveExc with _ | e
    all_goals try rcases e
    all_goals simp [program, hk, hs, List.filter_append, banner_filter_bind,
      getIp_no_bind, isBindEv]

/-- Witness for C8 at a concrete environment. -/
theorem single_bind_all_interfaces_witness :
    (program envDir).1.filter isBindEv = [Event.bind "" PORT] :=
  (single_bind_all_interfaces envDir).1 rfl

end Serve
